import Mathlib

/-!
# Verification of the `emission_room_lumens` Blender add-on

Shallow embedding of `src/__init__.py` of the `emission_room_lumens`
repository, together with proofs about the claims of its specification.

Modelling conventions:

* Python/Blender floats are modelled as exact rationals (`ℚ`); the float
  literals `0.05` and `3.28` of the source are the rationals `5/100` and
  `328/100`.
* A Blender `Object` is modelled by `BObject`: its type (`'MESH'` or other),
  its local-space vertex coordinates, its `matrix_world` (an affine map,
  the 4×4 world matrix restricted to points), its faces and its
  `active_material_index`.  A face's `calc_area()` is a host geometry
  routine; it is modelled as the per-face datum `Face.area`.
* The Blender `Context` is modelled by `Ctx`: `object` / `active_object`
  (the same object in Blender; both fields are kept because the source
  uses both accessors) and the `emission_props` of the active material of
  the active object (`none` when there is no active material).
* `numpy.linalg.eig` and `numpy.linalg.norm` are numerical floating-point
  routines; they are abstracted as parameters `E : EigSolver` and
  `N : Vec3 → ℚ` of the functions that call them.  Theorems about the
  eigen-dependent branch assume the characteristic properties of their
  exact results (orthonormal eigenvectors, norm `1` at unit vectors).
* The operator `calc_emission_strength` first runs
  `bpy.ops.object.transform_apply(scale=True)`; the model treats the mesh
  data as already scale-applied, so this step is the identity.
* Node-tree mutations (`mat.node_tree`) are outside the modelled state;
  the operators' effect on `emission_props` and their return status and
  warning reports are modelled exactly.
-/

/-- A 3-dimensional vector with rational coordinates (a `mathutils.Vector`
or a numpy row of a float computation, modelled exactly). -/
@[ext] structure Vec3 where
  x : ℚ
  y : ℚ
  z : ℚ
  deriving DecidableEq, Repr

namespace Vec3

def vadd (a b : Vec3) : Vec3 := ⟨a.x + b.x, a.y + b.y, a.z + b.z⟩

def vsub (a b : Vec3) : Vec3 := ⟨a.x - b.x, a.y - b.y, a.z - b.z⟩

def vneg (a : Vec3) : Vec3 := ⟨-a.x, -a.y, -a.z⟩

def smul (q : ℚ) (a : Vec3) : Vec3 := ⟨q * a.x, q * a.y, q * a.z⟩

def vdiv (a : Vec3) (q : ℚ) : Vec3 := ⟨a.x / q, a.y / q, a.z / q⟩

def dot (a b : Vec3) : ℚ := a.x * b.x + a.y * b.y + a.z * b.z

def cross (a b : Vec3) : Vec3 :=
  ⟨a.y * b.z - a.z * b.y, a.z * b.x - a.x * b.z, a.x * b.y - a.y * b.x⟩

def zero : Vec3 := ⟨0, 0, 0⟩

end Vec3

open Vec3

/-- An affine transformation of 3-space: the rows of the linear part of a
Blender 4×4 `matrix_world` together with its translation column. -/
structure Affine3 where
  r0 : Vec3
  r1 : Vec3
  r2 : Vec3
  t : Vec3
  deriving DecidableEq, Repr

/-- `obj.matrix_world @ v.co`: apply the world matrix to a point. -/
def Affine3.apply (A : Affine3) (v : Vec3) : Vec3 :=
  ⟨dot A.r0 v + A.t.x, dot A.r1 v + A.t.y, dot A.r2 v + A.t.z⟩

/-- The identity world matrix. -/
def Affine3.id : Affine3 :=
  ⟨⟨1, 0, 0⟩, ⟨0, 1, 0⟩, ⟨0, 0, 1⟩, ⟨0, 0, 0⟩⟩

/-- The `type` of a Blender object; only `'MESH'` is distinguished by the
add-on. -/
inductive ObjType where
  | MESH
  | OTHER
  deriving DecidableEq, Repr

/-- A mesh face: its `material_index` and the value of the host geometry
routine `face.calc_area()` (in m²). -/
structure Face where
  material_index : ℤ
  area : ℚ
  deriving DecidableEq, Repr

/-- A Blender object, restricted to the data the add-on reads. -/
structure BObject where
  objType : ObjType
  vertices : List Vec3
  matrix_world : Affine3
  faces : List Face
  active_material_index : ℤ
  deriving DecidableEq, Repr

/-- The `ler_preset` enum of `MaterialEmissionProperties`. -/
inductive LerPreset where
  | P300
  | P250
  | P683
  | P150
  | P100
  | P50
  | CUSTOM
  deriving DecidableEq, Repr

/-- `float(self.ler_preset)` for the non-custom presets (the enum
identifiers are the decimal strings `'300'`, …, `'50'`).  The value at
`CUSTOM` is irrelevant: `update_ler_from_preset` never evaluates it there. -/
def lerPresetNum : LerPreset → ℚ
  | .P300 => 300
  | .P250 => 250
  | .P683 => 683
  | .P150 => 150
  | .P100 => 100
  | .P50 => 50
  | .CUSTOM => 0

/-- The `room_area_source` enum. -/
inductive AreaSource where
  | MANUAL
  | BOUNDING_BOX
  deriving DecidableEq, Repr

/-- The `height_source` enum. -/
inductive HeightSource where
  | MANUAL
  | FROM_OBJECT
  deriving DecidableEq, Repr

/-- The `room_type` enum of `MaterialEmissionProperties`. -/
inductive RoomType where
  | kitchen_gen
  | kitchen_task
  | living_gen
  | living_read
  | bedroom_gen
  | bedroom_read
  | office
  | workshop
  | bathroom_gen
  | bathroom_mirror
  | studio
  | dining
  | hallway
  | laundry
  | gym
  | patio
  deriving DecidableEq, Repr

/-- The UI label of each `room_type` enum item, transcribed from the
`items` list of the property declaration. -/
def roomTypeLabel : RoomType → String
  | .kitchen_gen => "Kitchen – General (250 Lux)"
  | .kitchen_task => "Kitchen – Task (500 Lux)"
  | .living_gen => "Living Room – General (150 Lux)"
  | .living_read => "Living Room – Reading (400 Lux)"
  | .bedroom_gen => "Bedroom – General (100 Lux)"
  | .bedroom_read => "Bedroom – Reading (300 Lux)"
  | .office => "Office (400 Lux)"
  | .workshop => "Workshop (500 Lux)"
  | .bathroom_gen => "Bathroom – General (250 Lux)"
  | .bathroom_mirror => "Bathroom – Mirror (500 Lux)"
  | .studio => "Studio/Art Room (750 Lux)"
  | .dining => "Dining Room (150 Lux)"
  | .hallway => "Hallway (100 Lux)"
  | .laundry => "Laundry (300 Lux)"
  | .gym => "Gym (300 Lux)"
  | .patio => "Outdoor Patio (100 Lux)"

/-- The `lux` dictionary of `MATERIAL_OT_calc_room_lumens.execute`:
`(min, avg, max)` recommended lux per room type. -/
def luxTable : RoomType → ℕ × ℕ × ℕ
  | .kitchen_gen => (150, 250, 350)
  | .kitchen_task => (300, 500, 700)
  | .living_gen => (100, 150, 200)
  | .living_read => (300, 400, 500)
  | .bedroom_gen => (60, 100, 150)
  | .bedroom_read => (200, 300, 400)
  | .office => (300, 400, 500)
  | .workshop => (300, 500, 700)
  | .bathroom_gen => (150, 250, 350)
  | .bathroom_mirror => (300, 500, 700)
  | .studio => (500, 750, 1000)
  | .dining => (100, 150, 200)
  | .hallway => (50, 100, 150)
  | .laundry => (200, 300, 400)
  | .gym => (200, 300, 400)
  | .patio => (50, 100, 150)

/-- The `temp_k` dictionary of `MATERIAL_OT_calc_room_lumens.execute`:
`(min, avg, max)` colour temperature (K) per room type. -/
def tempTable : RoomType → ℤ × ℤ × ℤ
  | .kitchen_gen => (3000, 3500, 4000)
  | .kitchen_task => (4000, 4500, 5000)
  | .living_gen => (2700, 3000, 3500)
  | .living_read => (3000, 3500, 4000)
  | .bedroom_gen => (2500, 2700, 3000)
  | .bedroom_read => (2700, 3000, 3500)
  | .office => (4000, 4500, 5000)
  | .workshop => (4000, 5000, 6500)
  | .bathroom_gen => (3000, 3500, 4000)
  | .bathroom_mirror => (4000, 4500, 5000)
  | .studio => (5000, 5500, 6500)
  | .dining => (2700, 3000, 3500)
  | .hallway => (2700, 3000, 4000)
  | .laundry => (3500, 4000, 4500)
  | .gym => (4000, 4500, 5000)
  | .patio => (2700, 3000, 4000)

/-- `MaterialEmissionProperties`: the property group attached to a
material as `emission_props`. -/
structure EmissionProps where
  lumens : ℚ
  ler_preset : LerPreset
  ler : ℚ
  auto_area : Bool
  area : ℚ
  num_lights : ℤ
  strength : ℚ
  room_area_source : AreaSource
  room_area : ℚ
  wall_a : Option BObject
  wall_b : Option BObject
  height_source : HeightSource
  height_object : Option BObject
  room_height : ℚ
  room_type : RoomType
  lumens_min : ℚ
  lumens_avg : ℚ
  lumens_max : ℚ
  temp_min : ℤ
  temp_avg : ℤ
  temp_max : ℤ
  deriving DecidableEq, Repr

/-- The Blender context as read by the add-on: the active object
(`context.object` and `context.active_object` are both kept, because the
source uses both accessors) and the `emission_props` of its active
material (`none` models `obj.active_material` being `None`). -/
structure Ctx where
  object : Option BObject
  active_object : Option BObject
  active_material : Option EmissionProps
  deriving DecidableEq, Repr

/-- An operator's return status. -/
inductive Status where
  | FINISHED
  | CANCELLED
  deriving DecidableEq, Repr

/-- `get_active_material_area(obj)`: total `calc_area()` of the faces
whose `material_index` equals the object's `active_material_index`;
`0.0` for a missing or non-mesh object. -/
def get_active_material_area (obj : Option BObject) : ℚ :=
  match obj with
  | none => 0
  | some o =>
      if o.objType ≠ ObjType.MESH then 0
      else ((o.faces.filter
              (fun f => f.material_index = o.active_material_index)).map
              Face.area).foldr (· + ·) 0

/-- The world-space `z` coordinates of an object's vertices. -/
def worldZs (o : BObject) : List ℚ :=
  o.vertices.map (fun v => (o.matrix_world.apply v).z)

/-- Fold-based minimum of a list of rationals (`0` on the empty list,
which every caller guards against). -/
def listMin : List ℚ → ℚ
  | [] => 0
  | q :: qs => qs.foldl min q

/-- Fold-based maximum of a list of rationals (`0` on the empty list,
which every caller guards against). -/
def listMax : List ℚ → ℚ
  | [] => 0
  | q :: qs => qs.foldl max q

/-- `object_height(obj)`: `max(zs) - min(zs)` over the world-space vertex
`z` coordinates; `0.0` for a missing or non-mesh object or an empty
vertex list. -/
def object_height (obj : Option BObject) : ℚ :=
  match obj with
  | none => 0
  | some o =>
      if o.objType ≠ ObjType.MESH then 0
      else match worldZs o with
        | [] => 0
        | zs => listMax zs - listMin zs

/-- `update_ler_from_preset`: the `update` callback of `ler_preset`; for
a non-custom preset it assigns `float(self.ler_preset)` to `ler`. -/
def update_ler_from_preset (p : EmissionProps) : EmissionProps :=
  if p.ler_preset = LerPreset.CUSTOM then p
  else { p with ler := lerPresetNum p.ler_preset }

/-- `update_height_from_object`: the `update` callback of
`height_object`; copies a positive measured height into `room_height`. -/
def update_height_from_object (p : EmissionProps) : EmissionProps :=
  if p.height_source = HeightSource.FROM_OBJECT then
    match p.height_object with
    | some o =>
        if o.objType = ObjType.MESH then
          let h := object_height p.height_object
          if 0 < h then { p with room_height := h } else p
        else p
    | none => p
  else p

/-- The `objects` list of `bounding_box_area_xy`: the set walls, with the
active mesh object as a fallback when neither wall is set. -/
def gatherObjects (props : EmissionProps) (ctx : Ctx) : List BObject :=
  let objects :=
    (match props.wall_a with | some a => [a] | none => []) ++
    (match props.wall_b with | some b => [b] | none => [])
  if objects.isEmpty then
    match ctx.active_object with
    | some o => if o.objType = ObjType.MESH then [o] else []
    | none => []
  else objects

/-- The `verts_world` list of `bounding_box_area_xy`: world-space vertex
coordinates of every mesh object of the list, in order. -/
def worldVerts (objs : List BObject) : List Vec3 :=
  objs.foldr
    (fun o acc =>
      (if o.objType = ObjType.MESH then
        o.vertices.map o.matrix_world.apply
      else []) ++ acc) []

/-- The vertex set `bounding_box_area_xy` works on for given properties
and context. -/
def vertsGathered (props : EmissionProps) (ctx : Ctx) : List Vec3 :=
  worldVerts (gatherObjects props ctx)

/-- Component-wise sum of a list of vectors. -/
def vsum (vs : List Vec3) : Vec3 := vs.foldr vadd Vec3.zero

/-- `pts.mean(axis=0)`: the centroid of a list of points. -/
def meanV (vs : List Vec3) : Vec3 :=
  smul (1 / (vs.length : ℚ)) (vsum vs)

/-- A symmetric 3×3 matrix given by its rows. -/
structure Mat3 where
  m0 : Vec3
  m1 : Vec3
  m2 : Vec3
  deriving DecidableEq, Repr

/-- Sum of `f p * g p` over a point list. -/
def sumProd (vs : List Vec3) (f g : Vec3 → ℚ) : ℚ :=
  (vs.map (fun p => f p * g p)).foldr (· + ·) 0

/-- `np.cov(pts_centered.T)`: the sample covariance matrix (divisor
`n - 1`) of the centred point set.  The source centres the points before
the call; over exact rationals the centred data has mean exactly zero, so
numpy's internal mean subtraction is the identity. -/
def covMatrix (vs : List Vec3) : Mat3 :=
  let c := meanV vs
  let cs := vs.map (fun p => vsub p c)
  let d : ℚ := (vs.length : ℚ) - 1
  ⟨⟨sumProd cs Vec3.x Vec3.x / d, sumProd cs Vec3.x Vec3.y / d,
    sumProd cs Vec3.x Vec3.z / d⟩,
   ⟨sumProd cs Vec3.y Vec3.x / d, sumProd cs Vec3.y Vec3.y / d,
    sumProd cs Vec3.y Vec3.z / d⟩,
   ⟨sumProd cs Vec3.z Vec3.x / d, sumProd cs Vec3.z Vec3.y / d,
    sumProd cs Vec3.z Vec3.z / d⟩⟩

/-- The result of `np.linalg.eig` on a 3×3 matrix: the eigenvalue triple
and the corresponding eigenvector columns. -/
structure EigResult where
  vals : ℚ × ℚ × ℚ
  vecs : Vec3 × Vec3 × Vec3
  deriving DecidableEq, Repr

/-- An abstract numerical eigen-solver standing for `np.linalg.eig`. -/
def EigSolver : Type := Mat3 → EigResult

/-- Column `i` of an eigenvector matrix (`eigvecs[:, i]`). -/
def colAt (vecs : Vec3 × Vec3 × Vec3) : Fin 3 → Vec3
  | 0 => vecs.1
  | 1 => vecs.2.1
  | 2 => vecs.2.2

/-- `np.argmin` on a triple: the first index attaining the minimum. -/
def argmin3 (v : ℚ × ℚ × ℚ) : Fin 3 :=
  if v.1 ≤ v.2.1 ∧ v.1 ≤ v.2.2 then 0
  else if v.2.1 ≤ v.2.2 then 1 else 2

/-- `np.argmax` on a triple: the first index attaining the maximum. -/
def argmax3 (v : ℚ × ℚ × ℚ) : Fin 3 :=
  if v.2.1 ≤ v.1 ∧ v.2.2 ≤ v.1 then 0
  else if v.2.2 ≤ v.2.1 then 1 else 2

/-- The `normal` of `bounding_box_area_xy`: the eigenvector column of the
smallest eigenvalue of the covariance matrix of the vertex set. -/
def eigNormal (E : EigSolver) (verts : List Vec3) : Vec3 :=
  colAt (E (covMatrix verts)).vecs (argmin3 (E (covMatrix verts)).vals)

/-- The `axis_x` of `bounding_box_area_xy` before normalization: the
eigenvector column of the largest eigenvalue. -/
def eigAxisX (E : EigSolver) (verts : List Vec3) : Vec3 :=
  colAt (E (covMatrix verts)).vecs (argmax3 (E (covMatrix verts)).vals)

/-- The core of `bounding_box_area_xy` after its guards: centre the
points, run PCA, project onto the normalized in-plane axes and return the
area of the 2-D bounding rectangle.  `E` stands for `np.linalg.eig` and
`N` for `np.linalg.norm`. -/
def bboxCore (E : EigSolver) (N : Vec3 → ℚ) (verts : List Vec3) : ℚ :=
  let center := meanV verts
  let normal := eigNormal E verts
  let ax := eigAxisX E verts
  let ay := cross normal ax
  let axn := vdiv ax (N ax)
  let ayn := vdiv ay (N ay)
  let px := verts.map (fun p => dot (vsub p center) axn)
  let py := verts.map (fun p => dot (vsub p center) ayn)
  |(listMax px - listMin px) * (listMax py - listMin py)|

/-- `bounding_box_area_xy(props, context)`: projected floor area of the
reference objects, `0.0` when no reference object is available or fewer
than three world-space vertices are gathered. -/
def bounding_box_area_xy (E : EigSolver) (N : Vec3 → ℚ)
    (props : EmissionProps) (ctx : Ctx) : ℚ :=
  let objects := gatherObjects props ctx
  if objects.isEmpty then 0
  else
    let verts := worldVerts objects
    if verts.length < 3 then 0
    else bboxCore E N verts

/-- The emission area `MATERIAL_OT_calc_emission_strength.execute`
computes: the manual `area` property when `auto_area` is off, the summed
active-material face area otherwise (`0` when the guards before the area
computation already fail). -/
def emissionArea (ctx : Ctx) : ℚ :=
  match ctx.object, ctx.active_material with
  | some obj, some props =>
      if obj.objType = ObjType.MESH then
        if props.auto_area then get_active_material_area (some obj)
        else props.area
      else 0
  | _, _ => 0

/-- `MATERIAL_OT_calc_emission_strength.execute`, returning the status,
the final `emission_props` of the active material (when one exists) and
the list of `'WARNING'` reports. -/
def calc_emission_strength_execute (ctx : Ctx) :
    Status × Option EmissionProps × List String :=
  match ctx.object with
  | none => (Status.CANCELLED, ctx.active_material, ["Select a mesh object"])
  | some obj =>
      if obj.objType ≠ ObjType.MESH then
        (Status.CANCELLED, ctx.active_material, ["Select a mesh object"])
      else
        match ctx.active_material with
        | none => (Status.CANCELLED, none, ["No active material found"])
        | some props =>
            let area :=
              if props.auto_area then get_active_material_area (some obj)
              else props.area
            if area ≤ 0 then
              (Status.CANCELLED, some props, ["Invalid emission area"])
            else
              let total_area := area * (props.num_lights : ℚ)
              (Status.FINISHED,
               some { props with strength := props.lumens / props.ler / total_area },
               [])

/-- The height-correction factor of `calc_room_lumens`:
`1 + 0.05 * max(0, height * 3.28 - 10)`. -/
def hFactor (height : ℚ) : ℚ :=
  1 + (5 / 100) * max 0 (height * (328 / 100) - 10)

/-- The area-source step of `MATERIAL_OT_calc_room_lumens.execute`:
`none` models the `CANCELLED` early return on an invalid bounding-box
area; otherwise the properties with `room_area` possibly overwritten. -/
def roomAreaStep (E : EigSolver) (N : Vec3 → ℚ) (props : EmissionProps)
    (ctx : Ctx) : Option EmissionProps :=
  if props.room_area_source = AreaSource.BOUNDING_BOX then
    let a := bounding_box_area_xy E N props ctx
    if a ≤ 0 then none else some { props with room_area := a }
  else some props

/-- The height step of `MATERIAL_OT_calc_room_lumens.execute`: copy a
positive measured object height into `room_height`. -/
def roomHeightStep (props : EmissionProps) : EmissionProps :=
  if props.height_source = HeightSource.FROM_OBJECT then
    match props.height_object with
    | some _ =>
        let h := object_height props.height_object
        if 0 < h then { props with room_height := h } else props
    | none => props
  else props

/-- The computation step of `MATERIAL_OT_calc_room_lumens.execute`:
look up the lux and temperature triples of the room type and store the
outputs. -/
def roomComputeStep (props : EmissionProps) : EmissionProps :=
  let area := props.room_area
  let lux := luxTable props.room_type
  let tk := tempTable props.room_type
  let hf := hFactor props.room_height
  { props with
    lumens_min := (lux.1 : ℚ) * area * hf
    lumens_avg := (lux.2.1 : ℚ) * area * hf
    lumens_max := (lux.2.2 : ℚ) * area * hf
    temp_min := tk.1
    temp_avg := tk.2.1
    temp_max := tk.2.2 }

/-- `MATERIAL_OT_calc_room_lumens.execute`.  The result is `none` when
`context.object.active_material.emission_props` raises (missing object or
material); otherwise the status and the final properties. -/
def calc_room_lumens_execute (E : EigSolver) (N : Vec3 → ℚ) (ctx : Ctx) :
    Option (Status × EmissionProps) :=
  match ctx.object, ctx.active_material with
  | some _, some props =>
      some (match roomAreaStep E N props ctx with
        | none => (Status.CANCELLED, props)
        | some p1 => (Status.FINISHED, roomComputeStep (roomHeightStep p1)))
  | _, _ => none

/-- The `mode` enum of `MATERIAL_OT_use_lumens`. -/
inductive LumensMode where
  | MIN
  | AVG
  | MAX
  deriving DecidableEq, Repr

/-- `MATERIAL_OT_use_lumens.execute`: copy the selected computed lumens
value into `lumens`. -/
def use_lumens_execute (mode : LumensMode) (props : EmissionProps) :
    EmissionProps :=
  let val :=
    match mode with
    | .MIN => props.lumens_min
    | .AVG => props.lumens_avg
    | .MAX => props.lumens_max
  { props with lumens := val }

/-- The extent of a point list along a direction: the difference between
the largest and the smallest scalar product with that direction.  For a
unit direction this is the side length of the bounding box of the points
along it. -/
def extentAlong (vs : List Vec3) (a : Vec3) : ℚ :=
  listMax (vs.map fun p => dot p a) - listMin (vs.map fun p => dot p a)

/-- Concrete fixture: the default `MaterialEmissionProperties` record, with
every field at the default declared in the property group. -/
def defaultProps : EmissionProps :=
  { lumens := 850, ler_preset := .P300, ler := 300, auto_area := true,
    area := 2/100, num_lights := 1, strength := 0,
    room_area_source := .MANUAL, room_area := 20, wall_a := none,
    wall_b := none, height_source := .MANUAL, height_object := none,
    room_height := 27/10, room_type := .living_gen, lumens_min := 0,
    lumens_avg := 0, lumens_max := 0, temp_min := 0, temp_avg := 0,
    temp_max := 0 }

/-- Concrete fixture: a flat 2 m × 3 m rectangle in the world `xy` plane,
with one face of area 2 m² using material slot 0. -/
def meshSquare : BObject :=
  { objType := .MESH,
    vertices := [⟨0,0,0⟩, ⟨2,0,0⟩, ⟨0,3,0⟩, ⟨2,3,0⟩],
    matrix_world := Affine3.id,
    faces := [⟨0, 2⟩],
    active_material_index := 0 }

/-- Concrete fixture: a triangle of world `z` extent 2 m. -/
def meshPillar : BObject :=
  { objType := .MESH,
    vertices := [⟨0,0,0⟩, ⟨1,0,0⟩, ⟨0,1,2⟩],
    matrix_world := Affine3.id,
    faces := [],
    active_material_index := 0 }

/-- Concrete fixture: an eigen-solver returning the exact eigen-system of
the covariance matrix of `meshSquare`'s vertex set (eigenvalues `4/3`,
`3`, `0` with the standard basis as eigenvectors). -/
def E0 : EigSolver := fun _ => ⟨(4/3, 3, 0), (⟨1,0,0⟩, ⟨0,1,0⟩, ⟨0,0,1⟩)⟩

/-- Concrete fixture: a norm routine that is exact on unit vectors. -/
def N1 : Vec3 → ℚ := fun _ => 1

/-- Concrete fixture: a context whose active object is `meshSquare` with
the default properties on its active material. -/
def ctxManual : Ctx :=
  { object := some meshSquare, active_object := some meshSquare,
    active_material := some defaultProps }

/-- Concrete fixture: default properties with a 4 m ceiling (tall enough
to make the height-correction factor exceed 1). -/
def propsTall : EmissionProps := { defaultProps with room_height := 4 }

/-- Concrete fixture: context carrying `propsTall`. -/
def ctxTall : Ctx :=
  { object := some meshSquare, active_object := some meshSquare,
    active_material := some propsTall }

/-- Concrete fixture: default properties with `wall_a` set to
`meshSquare`. -/
def propsWall : EmissionProps := { defaultProps with wall_a := some meshSquare }

/-- Concrete fixture: properties in bounding-box mode with no reference
walls, measuring height from `meshPillar`. -/
def propsBBoxPillar : EmissionProps :=
  { defaultProps with
    room_area_source := .BOUNDING_BOX,
    height_source := .FROM_OBJECT,
    height_object := some meshPillar }

/-- Concrete fixture: a context with an active object and material but no
`active_object` for the bounding-box fallback, carrying
`propsBBoxPillar`: its bounding-box area computes to `0`. -/
def ctxBBoxPillar : Ctx :=
  { object := some meshSquare, active_object := none,
    active_material := some propsBBoxPillar }

/-- Concrete fixture: properties in bounding-box mode with no walls. -/
def propsBBox : EmissionProps :=
  { defaultProps with room_area_source := .BOUNDING_BOX }

/-- Concrete fixture: context carrying `propsBBox` with no fallback
object, so the bounding-box area is `0`. -/
def ctxBBox : Ctx :=
  { object := some meshSquare, active_object := none,
    active_material := some propsBBox }

/-! ### List fold lemmas -/

lemma foldl_min_le (xs : List ℚ) : ∀ x : ℚ, xs.foldl min x ≤ x := by
  induction xs with
  | nil => intro x; exact le_refl x
  | cons a xs ih =>
      intro x
      exact le_trans (ih (min x a)) (min_le_left x a)

lemma le_foldl_max (xs : List ℚ) : ∀ x : ℚ, x ≤ xs.foldl max x := by
  induction xs with
  | nil => intro x; exact le_refl x
  | cons a xs ih =>
      intro x
      exact le_trans (le_max_left x a) (ih (max x a))

lemma listMin_le_listMax (q : ℚ) (qs : List ℚ) :
    listMin (q :: qs) ≤ listMax (q :: qs) :=
  le_trans (foldl_min_le qs q) (le_foldl_max qs q)

lemma foldl_min_map_sub (xs : List ℚ) (k : ℚ) :
    ∀ x : ℚ, (xs.map (fun a => a - k)).foldl min (x - k) = xs.foldl min x - k := by
  induction xs with
  | nil => intro x; rfl
  | cons a xs ih =>
      intro x
      simp only [List.map_cons, List.foldl_cons, min_sub_sub_right]
      exact ih (min x a)

lemma foldl_max_map_sub (xs : List ℚ) (k : ℚ) :
    ∀ x : ℚ, (xs.map (fun a => a - k)).foldl max (x - k) = xs.foldl max x - k := by
  induction xs with
  | nil => intro x; rfl
  | cons a xs ih =>
      intro x
      simp only [List.map_cons, List.foldl_cons, max_sub_sub_right]
      exact ih (max x a)

lemma listMin_map_sub (q : ℚ) (qs : List ℚ) (k : ℚ) :
    listMin ((q - k) :: qs.map (fun a => a - k)) = listMin (q :: qs) - k := by
  simpa [listMin] using foldl_min_map_sub qs k q

lemma listMax_map_sub (q : ℚ) (qs : List ℚ) (k : ℚ) :
    listMax ((q - k) :: qs.map (fun a => a - k)) = listMax (q :: qs) - k := by
  simpa [listMax] using foldl_max_map_sub qs k q

lemma foldl_max_map_neg (xs : List ℚ) :
    ∀ x : ℚ, (xs.map (fun a => -a)).foldl max (-x) = -(xs.foldl min x) := by
  induction xs with
  | nil => intro x; rfl
  | cons a xs ih =>
      intro x
      simp only [List.map_cons, List.foldl_cons, max_neg_neg]
      exact ih (min x a)

lemma foldl_min_map_neg (xs : List ℚ) :
    ∀ x : ℚ, (xs.map (fun a => -a)).foldl min (-x) = -(xs.foldl max x) := by
  induction xs with
  | nil => intro x; rfl
  | cons a xs ih =>
      intro x
      simp only [List.map_cons, List.foldl_cons, min_neg_neg]
      exact ih (max x a)

lemma listMax_map_neg (q : ℚ) (qs : List ℚ) :
    listMax ((-q) :: qs.map (fun a => -a)) = -(listMin (q :: qs)) := by
  simpa [listMax, listMin] using foldl_max_map_neg qs q

lemma listMin_map_neg (q : ℚ) (qs : List ℚ) :
    listMin ((-q) :: qs.map (fun a => -a)) = -(listMax (q :: qs)) := by
  simpa [listMin, listMax] using foldl_min_map_neg qs q

/-! ### Vector algebra lemmas -/

lemma dot_comm (a b : Vec3) : dot a b = dot b a := by
  cases a; cases b; simp only [dot]; ring

lemma dot_sub_left (a b w : Vec3) : dot (vsub a b) w = dot a w - dot b w := by
  cases a; cases b; cases w; simp only [dot, vsub]; ring

lemma dot_neg_right (w m : Vec3) : dot w (vneg m) = -(dot w m) := by
  cases w; cases m; simp only [dot, vneg]; ring

lemma vdiv_one (a : Vec3) : vdiv a 1 = a := by
  cases a; simp [vdiv]

lemma vneg_vneg (a : Vec3) : vneg (vneg a) = a := by
  cases a; simp [vneg]

lemma smul_one_left (a : Vec3) : smul 1 a = a := by
  cases a; simp [smul]

lemma smul_neg_one_left (a : Vec3) : smul (-1) a = vneg a := by
  cases a; simp [smul, vneg]

lemma vsub_eq_zero_iff (a b : Vec3) : vsub a b = Vec3.zero ↔ a = b := by
  cases a; cases b
  simp only [vsub, Vec3.zero, Vec3.mk.injEq, sub_eq_zero]

lemma cross_zero_right (a : Vec3) : cross a Vec3.zero = Vec3.zero := by
  cases a; simp [cross, Vec3.zero]

lemma lagrange (n x : Vec3) :
    dot (cross n x) (cross n x) = dot n n * dot x x - dot n x * dot n x := by
  cases n; cases x; simp only [dot, cross]; ring

lemma vec_cross_cross (a b v : Vec3) :
    cross (cross a b) v = vsub (smul (dot a v) b) (smul (dot b v) a) := by
  cases a; cases b; cases v
  simp only [cross, dot, vsub, smul, Vec3.mk.injEq]
  exact ⟨by ring, by ring, by ring⟩

lemma dot_smul_smul (q : ℚ) (c : Vec3) :
    dot (smul q c) (smul q c) = q * q * dot c c := by
  cases c; simp only [dot, smul]; ring

/-- A unit vector orthogonal to two orthogonal unit vectors `n` and `x`
is `cross n x` up to sign. -/
lemma cross_eq_or (n x m : Vec3)
    (hn : dot n n = 1) (hx : dot x x = 1) (hnx : dot n x = 0)
    (hm : dot m m = 1) (hmn : dot m n = 0) (hmx : dot m x = 0) :
    cross n x = m ∨ cross n x = vneg m := by
  have hcc : dot (cross n x) (cross n x) = 1 := by
    rw [lagrange, hn, hx, hnx]; ring
  have hcm0 : cross (cross n x) m = Vec3.zero := by
    rw [vec_cross_cross, dot_comm n m, dot_comm x m, hmn, hmx]
    cases x; cases n
    simp [smul, vsub, Vec3.zero]
  have htrip := vec_cross_cross (cross n x) m (cross n x)
  -- ((n×x)×m)×(n×x) = ((n×x)·(n×x))·m - (m·(n×x))·(n×x)
  rw [hcm0, hcc] at htrip
  have hzero : cross Vec3.zero (cross n x) = Vec3.zero := by
    cases n; cases x
    simp [cross, Vec3.zero]
  rw [hzero] at htrip
  have hmeq : smul 1 m = smul (dot m (cross n x)) (cross n x) :=
    (vsub_eq_zero_iff _ _).mp htrip.symm
  rw [smul_one_left] at hmeq
  have hq2 : dot m (cross n x) * dot m (cross n x) = 1 := by
    have := hm
    rw [hmeq, dot_smul_smul, hcc, mul_one] at this
    exact this
  rcases mul_self_eq_one_iff.mp hq2 with hq | hq
  · left
    rw [hq, smul_one_left] at hmeq
    exact hmeq.symm
  · right
    rw [hq, smul_neg_one_left] at hmeq
    rw [hmeq, vneg_vneg]

/-! ### Extent lemmas -/

lemma extent_shift (v : Vec3) (vs : List Vec3) (c a : Vec3) :
    listMax ((v :: vs).map fun p => dot (vsub p c) a)
      - listMin ((v :: vs).map fun p => dot (vsub p c) a)
      = extentAlong (v :: vs) a := by
  have hfun : (fun p => dot (vsub p c) a)
      = (fun q => q - dot c a) ∘ (fun p : Vec3 => dot p a) := by
    funext p
    simp [Function.comp, dot_sub_left]
  rw [hfun, ← List.map_map]
  simp only [List.map_cons]
  rw [listMax_map_sub, listMin_map_sub]
  simp only [extentAlong, List.map_cons]
  ring

lemma extent_neg (v : Vec3) (vs : List Vec3) (c m : Vec3) :
    listMax ((v :: vs).map fun p => dot (vsub p c) (vneg m))
      - listMin ((v :: vs).map fun p => dot (vsub p c) (vneg m))
      = extentAlong (v :: vs) m := by
  have hfun : (fun p => dot (vsub p c) (vneg m))
      = (fun q => -q) ∘ (fun p : Vec3 => dot (vsub p c) m) := by
    funext p
    simp [Function.comp, dot_neg_right]
  rw [hfun, ← List.map_map]
  simp only [List.map_cons]
  rw [listMax_map_neg, listMin_map_neg]
  have h := extent_shift v vs c m
  simp only [List.map_cons] at h
  linarith [h]

lemma extent_nonneg (v : Vec3) (vs : List Vec3) (a : Vec3) :
    0 ≤ extentAlong (v :: vs) a := by
  simp only [extentAlong, List.map_cons]
  have h := listMin_le_listMax (dot v a) (vs.map fun p => dot p a)
  linarith

/-- The guarded core of `bounding_box_area_xy` on a nonempty vertex list:
assuming the eigen-solver returned orthonormal data and the norm routine
is exact on the two unit axes, the result is the product of the point
extents along the dominant eigenvector and along the remaining
orthonormal direction `m`. -/
lemma bboxCore_eq (E : EigSolver) (N : Vec3 → ℚ) (v : Vec3) (vs : List Vec3)
    (m : Vec3)
    (hn : dot (eigNormal E (v :: vs)) (eigNormal E (v :: vs)) = 1)
    (hx : dot (eigAxisX E (v :: vs)) (eigAxisX E (v :: vs)) = 1)
    (hnx : dot (eigNormal E (v :: vs)) (eigAxisX E (v :: vs)) = 0)
    (hm : dot m m = 1)
    (hmn : dot m (eigNormal E (v :: vs)) = 0)
    (hmx : dot m (eigAxisX E (v :: vs)) = 0)
    (hN1 : N (eigAxisX E (v :: vs)) = 1)
    (hN2 : N (cross (eigNormal E (v :: vs)) (eigAxisX E (v :: vs))) = 1) :
    bboxCore E N (v :: vs)
      = extentAlong (v :: vs) (eigAxisX E (v :: vs)) * extentAlong (v :: vs) m := by
  simp only [bboxCore]
  rw [hN1, hN2, vdiv_one, vdiv_one]
  rcases cross_eq_or (eigNormal E (v :: vs)) (eigAxisX E (v :: vs)) m
      hn hx hnx hm hmn hmx with hc | hc
  · rw [hc, extent_shift, extent_shift]
    exact abs_of_nonneg (mul_nonneg (extent_nonneg _ _ _) (extent_nonneg _ _ _))
  · rw [hc, extent_shift, extent_neg]
    exact abs_of_nonneg (mul_nonneg (extent_nonneg _ _ _) (extent_nonneg _ _ _))

/-- C5: `bounding_box_area_xy` returns `0.0` when no reference object is
available and when fewer than three world-space vertices are gathered
from `wall_a`, `wall_b` (or the active mesh fallback); otherwise it
returns the area of the axis-aligned bounding rectangle of the gathered
world-space vertices projected onto the plane spanned by the two dominant
PCA eigenvectors: assuming the abstracted `np.linalg.eig` returned
orthonormal eigenvectors (`eigNormal` the one of the smallest eigenvalue,
`eigAxisX` the dominant one, `m` the remaining one, which spans the
dominant plane together with `eigAxisX`) and `np.linalg.norm` is exact on
the unit axes, the result is the product of the vertex extents along the
two dominant eigendirections. -/
theorem bounding_box_area_xy_spec (E : EigSolver) (N : Vec3 → ℚ)
    (props : EmissionProps) (ctx : Ctx) :
    (gatherObjects props ctx = [] → bounding_box_area_xy E N props ctx = 0)
    ∧ ((vertsGathered props ctx).length < 3 →
        bounding_box_area_xy E N props ctx = 0)
    ∧ (∀ m : Vec3,
        3 ≤ (vertsGathered props ctx).length →
        dot (eigNormal E (vertsGathered props ctx))
          (eigNormal E (vertsGathered props ctx)) = 1 →
        dot (eigAxisX E (vertsGathered props ctx))
          (eigAxisX E (vertsGathered props ctx)) = 1 →
        dot (eigNormal E (vertsGathered props ctx))
          (eigAxisX E (vertsGathered props ctx)) = 0 →
        dot m m = 1 →
        dot m (eigNormal E (vertsGathered props ctx)) = 0 →
        dot m (eigAxisX E (vertsGathered props ctx)) = 0 →
        N (eigAxisX E (vertsGathered props ctx)) = 1 →
        N (cross (eigNormal E (vertsGathered props ctx))
            (eigAxisX E (vertsGathered props ctx))) = 1 →
        bounding_box_area_xy E N props ctx
          = extentAlong (vertsGathered props ctx)
              (eigAxisX E (vertsGathered props ctx))
            * extentAlong (vertsGathered props ctx) m) := by
  refine ⟨?_, ?_, ?_⟩
  · intro h
    simp [bounding_box_area_xy, h]
  · intro h
    by_cases hobj : (gatherObjects props ctx).isEmpty = true
    · simp [bounding_box_area_xy, hobj]
    · unfold vertsGathered at h
      simp [bounding_box_area_xy, hobj, h]
  · intro m hlen hn hx hnx hm hmn hmx hN1 hN2
    have hobjs : ¬ (gatherObjects props ctx).isEmpty = true := by
      cases hg : gatherObjects props ctx with
      | nil =>
          rw [vertsGathered, hg] at hlen
          simp [worldVerts] at hlen
      | cons a l => simp
    have hlen' : ¬ (worldVerts (gatherObjects props ctx)).length < 3 :=
      Nat.not_lt.mpr hlen
    have hred : bounding_box_area_xy E N props ctx
        = bboxCore E N (vertsGathered props ctx) := by
      simp only [bounding_box_area_xy]
      rw [if_neg hobjs, if_neg hlen']
      rfl
    obtain ⟨v, vs, hv⟩ : ∃ v vs, vertsGathered props ctx = v :: vs := by
      cases hcase : vertsGathered props ctx with
      | nil => rw [hcase] at hlen; simp at hlen
      | cons v vs => exact ⟨v, vs, rfl⟩
    rw [hv] at hn hx hnx hmn hmx hN1 hN2
    rw [hred, hv]
    exact bboxCore_eq E N v vs m hn hx hnx hm hmn hmx hN1 hN2

/-- Witness for `bounding_box_area_xy_spec`: with `wall_a := meshSquare`
(a flat 2 m × 3 m rectangle), the exact eigen-solver `E0` and the exact
norm `N1`, the area is the product of the extents along the two dominant
eigendirections (which evaluates to 6 m²). -/
theorem bounding_box_area_xy_spec_witness :
    bounding_box_area_xy E0 N1 propsWall ctxManual =
      extentAlong (vertsGathered propsWall ctxManual)
        (eigAxisX E0 (vertsGathered propsWall ctxManual))
      * extentAlong (vertsGathered propsWall ctxManual) ⟨1, 0, 0⟩ := by
  apply (bounding_box_area_xy_spec E0 N1 propsWall ctxManual).2.2 ⟨1, 0, 0⟩
  all_goals
    norm_num +decide [vertsGathered, gatherObjects, worldVerts, propsWall,
      defaultProps, meshSquare, ctxManual, Affine3.apply, Affine3.id,
      eigNormal, eigAxisX, E0, N1, argmin3, argmax3, colAt, Vec3.dot,
      Vec3.cross, covMatrix, meanV, vsum, sumProd, Vec3.vadd, Vec3.vsub,
      Vec3.smul, Vec3.zero]

/-- C1: on every successful run of `calc_emission_strength` (the status
is `FINISHED`), the stored `strength` equals
`lumens / (ler * area * num_lights)`, where `area` is the summed
active-material face area when `auto_area` is on and the manual `area`
property when it is off. -/
theorem calc_emission_strength_formula (ctx : Ctx) (obj : BObject)
    (props0 : EmissionProps)
    (hobj : ctx.object = some obj)
    (hmat : ctx.active_material = some props0)
    (hfin : (calc_emission_strength_execute ctx).1 = Status.FINISHED) :
    (calc_emission_strength_execute ctx).2.1 =
      some { props0 with
        strength := props0.lumens /
          (props0.ler *
            (if props0.auto_area then get_active_material_area (some obj)
             else props0.area) *
            (props0.num_lights : ℚ)) } := by
  simp only [calc_emission_strength_execute, hobj, hmat] at hfin ⊢
  by_cases ht : obj.objType ≠ ObjType.MESH
  · simp [ht] at hfin
  · simp only [ht, if_false] at hfin ⊢
    by_cases harea : (if props0.auto_area then get_active_material_area (some obj)
        else props0.area) ≤ 0
    · simp [harea] at hfin
    · simp only [harea, if_false]
      congr 1
      congr 1
      rw [div_div, ← mul_assoc]

/-- Witness for `calc_emission_strength_formula`: on `ctxManual` (mesh
with one slot-0 face of area 2 m², default properties) the operator
finishes and stores `850 / 300 / 2`. -/
theorem calc_emission_strength_formula_witness :
    (calc_emission_strength_execute ctxManual).2.1 =
      some { defaultProps with
        strength := defaultProps.lumens /
          (defaultProps.ler *
            (if defaultProps.auto_area
             then get_active_material_area (some meshSquare)
             else defaultProps.area) *
            (defaultProps.num_lights : ℚ)) } := by
  apply calc_emission_strength_formula ctxManual meshSquare defaultProps rfl rfl
  norm_num +decide [calc_emission_strength_execute, ctxManual,
    get_active_material_area, meshSquare, defaultProps]

/-! ### Step lemmas for `calc_room_lumens` -/

lemma roomAreaStep_some (E : EigSolver) (N : Vec3 → ℚ)
    (props : EmissionProps) (ctx : Ctx) (p1 : EmissionProps)
    (h : roomAreaStep E N props ctx = some p1) :
    p1.height_source = props.height_source ∧
    p1.height_object = props.height_object ∧
    p1.room_height = props.room_height ∧
    p1.room_type = props.room_type ∧
    p1.ler = props.ler := by
  unfold roomAreaStep at h
  by_cases hs : props.room_area_source = AreaSource.BOUNDING_BOX
  · simp only [hs, if_true] at h
    by_cases ha : bounding_box_area_xy E N props ctx ≤ 0
    · simp [ha] at h
    · simp only [ha, if_false, Option.some.injEq] at h
      rw [← h]
      exact ⟨rfl, rfl, rfl, rfl, rfl⟩
  · simp only [hs, if_false, Option.some.injEq] at h
    rw [← h]
    exact ⟨rfl, rfl, rfl, rfl, rfl⟩

lemma roomHeightStep_room_area (p : EmissionProps) :
    (roomHeightStep p).room_area = p.room_area := by
  unfold roomHeightStep
  by_cases h : p.height_source = HeightSource.FROM_OBJECT
  · simp only [h, if_true]
    cases p.height_object with
    | none => rfl
    | some o => by_cases hh : 0 < object_height (some o) <;> simp [hh]
  · simp [h]

lemma roomHeightStep_room_type (p : EmissionProps) :
    (roomHeightStep p).room_type = p.room_type := by
  unfold roomHeightStep
  by_cases h : p.height_source = HeightSource.FROM_OBJECT
  · simp only [h, if_true]
    cases p.height_object with
    | none => rfl
    | some o => by_cases hh : 0 < object_height (some o) <;> simp [hh]
  · simp [h]

lemma roomHeightStep_ler (p : EmissionProps) :
    (roomHeightStep p).ler = p.ler := by
  unfold roomHeightStep
  by_cases h : p.height_source = HeightSource.FROM_OBJECT
  · simp only [h, if_true]
    cases p.height_object with
    | none => rfl
    | some o => by_cases hh : 0 < object_height (some o) <;> simp [hh]
  · simp [h]

/-- C2: on every successful run of `calc_room_lumens`, the stored
`lumens_avg` equals the room type's average lux times the room area times
the height factor, and `lumens_min` / `lumens_max` equal the minimum and
maximum lux times the same area and height factor. -/
theorem calc_room_lumens_formula (E : EigSolver) (N : Vec3 → ℚ) (ctx : Ctx)
    (p' : EmissionProps)
    (hrun : calc_room_lumens_execute E N ctx = some (Status.FINISHED, p')) :
    p'.lumens_min =
        ((luxTable p'.room_type).1 : ℚ) * p'.room_area * hFactor p'.room_height ∧
    p'.lumens_avg =
        ((luxTable p'.room_type).2.1 : ℚ) * p'.room_area * hFactor p'.room_height ∧
    p'.lumens_max =
        ((luxTable p'.room_type).2.2 : ℚ) * p'.room_area * hFactor p'.room_height := by
  unfold calc_room_lumens_execute at hrun
  rcases hco : ctx.object with _ | obj <;> rw [hco] at hrun
  · simp at hrun
  rcases hcm : ctx.active_material with _ | props <;> rw [hcm] at hrun
  · simp at hrun
  dsimp only at hrun
  cases hstep : roomAreaStep E N props ctx with
  | none =>
      rw [hstep] at hrun
      simp +decide at hrun
  | some p1 =>
      rw [hstep] at hrun
      simp only [Option.some.injEq, Prod.mk.injEq] at hrun
      rw [← hrun.2]
      simp [roomComputeStep]

/-- Concrete fixture: the output properties of `calc_room_lumens` on
`ctxManual` (manual 20 m² area, 2.7 m ceiling, living-room type). -/
def roomOutManual : EmissionProps :=
  { defaultProps with
    lumens_min := 2000, lumens_avg := 3000, lumens_max := 4000,
    temp_min := 2700, temp_avg := 3000, temp_max := 3500 }

/-- Witness for `calc_room_lumens_formula`: on `ctxManual` the operator
finishes with `lumens = lux * 20 * 1` (the height factor is 1 at 2.7 m). -/
theorem calc_room_lumens_formula_witness :
    roomOutManual.lumens_min =
        ((luxTable roomOutManual.room_type).1 : ℚ) * roomOutManual.room_area *
          hFactor roomOutManual.room_height ∧
    roomOutManual.lumens_avg =
        ((luxTable roomOutManual.room_type).2.1 : ℚ) * roomOutManual.room_area *
          hFactor roomOutManual.room_height ∧
    roomOutManual.lumens_max =
        ((luxTable roomOutManual.room_type).2.2 : ℚ) * roomOutManual.room_area *
          hFactor roomOutManual.room_height :=
  calc_room_lumens_formula E0 N1 ctxManual roomOutManual (by
    norm_num +decide [calc_room_lumens_execute, roomAreaStep, roomHeightStep,
      roomComputeStep, ctxManual, defaultProps, roomOutManual, hFactor,
      luxTable, tempTable])

/-- C3 counterexample: with a 4 m ceiling the height factor is
`1.156 ≠ 1`, so the stored `lumens_avg` (3468) differs from lux times
room area (150 × 20 = 3000): the recommended lumens are NOT the plain
lux-times-area conversion. -/
theorem calc_room_lumens_lux_area_only_false :
    ((calc_room_lumens_execute E0 N1 ctxTall).map
        (fun r => (r.1, r.2.room_type, r.2.room_area, r.2.lumens_avg)))
      = some (Status.FINISHED, RoomType.living_gen, 20, 3468)
    ∧ ((3468 : ℚ) ≠ ((luxTable RoomType.living_gen).2.1 : ℚ) * 20) := by
  constructor
  · norm_num +decide [calc_room_lumens_execute, roomAreaStep, roomHeightStep,
      roomComputeStep, ctxTall, propsTall, defaultProps, hFactor, luxTable,
      tempTable]
  · norm_num [luxTable]

/-- C3 amended: on every run of `calc_room_lumens`, the recommended
lumens values equal lux times room area times the height-correction
factor `1 + 0.05 * max(0, height * 3.28 - 10)` (which is 1 only for
rooms up to `10/3.28` m high). -/
theorem calc_room_lumens_lux_area_height (E : EigSolver) (N : Vec3 → ℚ)
    (ctx : Ctx) (p' : EmissionProps)
    (hrun : calc_room_lumens_execute E N ctx = some (Status.FINISHED, p')) :
    p'.lumens_min = ((luxTable p'.room_type).1 : ℚ) * p'.room_area *
        (1 + (5 / 100) * max 0 (p'.room_height * (328 / 100) - 10)) ∧
    p'.lumens_avg = ((luxTable p'.room_type).2.1 : ℚ) * p'.room_area *
        (1 + (5 / 100) * max 0 (p'.room_height * (328 / 100) - 10)) ∧
    p'.lumens_max = ((luxTable p'.room_type).2.2 : ℚ) * p'.room_area *
        (1 + (5 / 100) * max 0 (p'.room_height * (328 / 100) - 10)) := by
  unfold calc_room_lumens_execute at hrun
  rcases hco : ctx.object with _ | obj <;> rw [hco] at hrun
  · simp at hrun
  rcases hcm : ctx.active_material with _ | props <;> rw [hcm] at hrun
  · simp at hrun
  dsimp only at hrun
  cases hstep : roomAreaStep E N props ctx with
  | none =>
      rw [hstep] at hrun
      simp +decide at hrun
  | some p1 =>
      rw [hstep] at hrun
      simp only [Option.some.injEq, Prod.mk.injEq] at hrun
      rw [← hrun.2]
      simp [roomComputeStep, hFactor]

/-- Concrete fixture: the output properties of `calc_room_lumens` on
`ctxTall` (4 m ceiling, height factor `289/250`). -/
def roomOutTall : EmissionProps :=
  { propsTall with
    lumens_min := 2312, lumens_avg := 3468, lumens_max := 4624,
    temp_min := 2700, temp_avg := 3000, temp_max := 3500 }

/-- Witness for `calc_room_lumens_lux_area_height`: on `ctxTall` the
operator finishes and the stored lumens are lux × 20 × 289/250. -/
theorem calc_room_lumens_lux_area_height_witness :
    roomOutTall.lumens_min = ((luxTable roomOutTall.room_type).1 : ℚ) *
        roomOutTall.room_area *
        (1 + (5 / 100) * max 0 (roomOutTall.room_height * (328 / 100) - 10)) ∧
    roomOutTall.lumens_avg = ((luxTable roomOutTall.room_type).2.1 : ℚ) *
        roomOutTall.room_area *
        (1 + (5 / 100) * max 0 (roomOutTall.room_height * (328 / 100) - 10)) ∧
    roomOutTall.lumens_max = ((luxTable roomOutTall.room_type).2.2 : ℚ) *
        roomOutTall.room_area *
        (1 + (5 / 100) * max 0 (roomOutTall.room_height * (328 / 100) - 10)) :=
  calc_room_lumens_lux_area_height E0 N1 ctxTall roomOutTall (by
    norm_num +decide [calc_room_lumens_execute, roomAreaStep, roomHeightStep,
      roomComputeStep, ctxTall, propsTall, defaultProps, roomOutTall, hFactor,
      luxTable, tempTable])

/-- C4: `calc_emission_strength` returns `CANCELLED` (and reports a
warning) exactly when the active object is missing or not a mesh, the
active material is missing, or the computed emission area is not
positive; in every other case it returns `FINISHED` with no warning. -/
theorem calc_emission_strength_cancel_iff (ctx : Ctx) :
    ((calc_emission_strength_execute ctx).1 = Status.CANCELLED ↔
      (ctx.object = none ∨
       (∃ o, ctx.object = some o ∧ o.objType ≠ ObjType.MESH) ∨
       ctx.active_material = none ∨
       emissionArea ctx ≤ 0))
    ∧ ((calc_emission_strength_execute ctx).1 = Status.CANCELLED ↔
        (calc_emission_strength_execute ctx).2.2 ≠ []) := by
  obtain ⟨cobj, cact, cmat⟩ := ctx
  cases cobj with
  | none => simp +decide [calc_emission_strength_execute, emissionArea]
  | some obj =>
      cases cmat with
      | none =>
          by_cases ht : obj.objType = ObjType.MESH <;>
            simp +decide [calc_emission_strength_execute, emissionArea, ht]
      | some props =>
          by_cases ht : obj.objType = ObjType.MESH
          · by_cases harea :
                (if props.auto_area then get_active_material_area (some obj)
                 else props.area) ≤ 0 <;>
              simp +decide [calc_emission_strength_execute, emissionArea, ht,
                harea]
          · simp +decide [calc_emission_strength_execute, emissionArea, ht]

/-- C6: `calc_room_lumens` takes its outputs from the fixed lux and
colour-temperature lookup tables keyed by `room_type`; the temperature
triple is stored unchanged into `temp_min`, `temp_avg`, `temp_max`, and
for every room type the average lux entry of the table is the lux figure
shown in the room type's enum label (the label ends with
`"(<avg> Lux)"`). -/
theorem room_tables_spec :
    (∀ (E : EigSolver) (N : Vec3 → ℚ) (ctx : Ctx) (p' : EmissionProps),
      calc_room_lumens_execute E N ctx = some (Status.FINISHED, p') →
      p'.temp_min = (tempTable p'.room_type).1 ∧
      p'.temp_avg = (tempTable p'.room_type).2.1 ∧
      p'.temp_max = (tempTable p'.room_type).2.2)
    ∧ (∀ rt : RoomType,
        (("(" ++ Nat.repr (luxTable rt).2.1 ++ " Lux)").data).isSuffixOf
          (roomTypeLabel rt).data = true) := by
  constructor
  · intro E N ctx p' hrun
    unfold calc_room_lumens_execute at hrun
    rcases hco : ctx.object with _ | obj <;> rw [hco] at hrun
    · simp at hrun
    rcases hcm : ctx.active_material with _ | props <;> rw [hcm] at hrun
    · simp at hrun
    dsimp only at hrun
    cases hstep : roomAreaStep E N props ctx with
    | none =>
        rw [hstep] at hrun
        simp +decide at hrun
    | some p1 =>
        rw [hstep] at hrun
        simp only [Option.some.injEq, Prod.mk.injEq] at hrun
        rw [← hrun.2]
        simp [roomComputeStep]
  · intro rt
    cases rt <;> decide

/-- Witness for `room_tables_spec`: the successful run on `ctxManual`
stores the living-room temperature triple `(2700, 3000, 3500)`. -/
theorem room_tables_spec_witness :
    roomOutManual.temp_min = (tempTable roomOutManual.room_type).1 ∧
    roomOutManual.temp_avg = (tempTable roomOutManual.room_type).2.1 ∧
    roomOutManual.temp_max = (tempTable roomOutManual.room_type).2.2 :=
  room_tables_spec.1 E0 N1 ctxManual roomOutManual (by
    norm_num +decide [calc_room_lumens_execute, roomAreaStep, roomHeightStep,
      roomComputeStep, ctxManual, defaultProps, roomOutManual, hFactor,
      luxTable, tempTable])

/-- C7: the efficacy `ler` never drops below 1: every non-custom preset
value is at least 1 (so `update_ler_from_preset` never writes a value
below 1), the two update callbacks preserve `ler ≥ 1`, and the operators
leave `ler` unchanged.  (The property declaration itself carries
`min=1`, so the host clamps any direct assignment at 1.) -/
theorem ler_ge_one_invariant :
    (∀ pr : LerPreset, pr ≠ LerPreset.CUSTOM → 1 ≤ lerPresetNum pr)
    ∧ (∀ p : EmissionProps, 1 ≤ p.ler → 1 ≤ (update_ler_from_preset p).ler)
    ∧ (∀ p : EmissionProps, 1 ≤ p.ler →
        1 ≤ (update_height_from_object p).ler)
    ∧ (∀ (ctx : Ctx) (props0 p' : EmissionProps),
        ctx.active_material = some props0 →
        (calc_emission_strength_execute ctx).2.1 = some p' →
        p'.ler = props0.ler)
    ∧ (∀ (E : EigSolver) (N : Vec3 → ℚ) (ctx : Ctx) (st : Status)
        (props0 p' : EmissionProps),
        ctx.active_material = some props0 →
        calc_room_lumens_execute E N ctx = some (st, p') →
        p'.ler = props0.ler)
    ∧ (∀ (mode : LumensMode) (p : EmissionProps),
        (use_lumens_execute mode p).ler = p.ler) := by
  refine ⟨?_, ?_, ?_, ?_, ?_, ?_⟩
  · intro pr h
    cases pr <;> first
      | exact absurd rfl h
      | norm_num [lerPresetNum]
  · intro p h
    by_cases hc : p.ler_preset = LerPreset.CUSTOM
    · simp [update_ler_from_preset, hc, h]
    · simp only [update_ler_from_preset, hc, if_false]
      rcases hp : p.ler_preset <;> norm_num [lerPresetNum]
      exact absurd hp hc
  · intro p h
    unfold update_height_from_object
    by_cases hs : p.height_source = HeightSource.FROM_OBJECT
    · simp only [hs, if_true]
      cases p.height_object with
      | none => exact h
      | some o =>
          by_cases hm : o.objType = ObjType.MESH
          · simp only [hm, if_true]
            by_cases hh : 0 < object_height (some o) <;> simp [hh, h]
          · simp [hm, h]
    · simp [hs, h]
  · intro ctx props0 p' hmat hout
    unfold calc_emission_strength_execute at hout
    rcases hco : ctx.object with _ | obj <;> rw [hco] at hout
    · rw [hmat] at hout
      dsimp only at hout
      simp only [Option.some.injEq] at hout
      rw [← hout]
    dsimp only at hout
    by_cases ht : obj.objType ≠ ObjType.MESH
    · rw [if_pos ht, hmat] at hout
      dsimp only at hout
      simp only [Option.some.injEq] at hout
      rw [← hout]
    · rw [if_neg ht, hmat] at hout
      dsimp only at hout
      by_cases harea : (if props0.auto_area
          then get_active_material_area (some obj) else props0.area) ≤ 0
      · rw [if_pos harea] at hout
        dsimp only at hout
        simp only [Option.some.injEq] at hout
        rw [← hout]
      · rw [if_neg harea] at hout
        dsimp only at hout
        simp only [Option.some.injEq] at hout
        rw [← hout]
  · intro E N ctx st props0 p' hmat hrun
    unfold calc_room_lumens_execute at hrun
    rcases hco : ctx.object with _ | obj <;> rw [hco] at hrun
    · simp at hrun
    rw [hmat] at hrun
    dsimp only at hrun
    cases hstep : roomAreaStep E N props0 ctx with
    | none =>
        rw [hstep] at hrun
        simp only [Option.some.injEq, Prod.mk.injEq] at hrun
        rw [← hrun.2]
    | some p1 =>
        rw [hstep] at hrun
        simp only [Option.some.injEq, Prod.mk.injEq] at hrun
        rw [← hrun.2]
        have h1 : (roomComputeStep (roomHeightStep p1)).ler
            = (roomHeightStep p1).ler := by simp [roomComputeStep]
        rw [h1, roomHeightStep_ler]
        exact (roomAreaStep_some E N props0 ctx p1 hstep).2.2.2.2
  · intro mode p
    simp [use_lumens_execute]

/-- Witness for `ler_ge_one_invariant`: on the default properties
(`ler = 300`) the preset-synchronization update keeps `ler ≥ 1`. -/
theorem ler_ge_one_invariant_witness :
    1 ≤ (update_ler_from_preset defaultProps).ler :=
  ler_ge_one_invariant.2.1 defaultProps (by norm_num [defaultProps])

/-- C8 counterexample: a run of `calc_room_lumens` cancelled by the
bounding-box area guard does not update `room_height`, even though
`height_source` is `'FROM_OBJECT'`, a height object is set and its
measured extent (2 m) is positive — so "updates if and only if the
extent is positive" fails as stated. -/
theorem height_not_updated_on_cancelled_run :
    calc_room_lumens_execute E0 N1 ctxBBoxPillar
        = some (Status.CANCELLED, propsBBoxPillar)
    ∧ propsBBoxPillar.height_source = HeightSource.FROM_OBJECT
    ∧ propsBBoxPillar.height_object.isSome = true
    ∧ 0 < object_height propsBBoxPillar.height_object
    ∧ propsBBoxPillar.room_height ≠ object_height propsBBoxPillar.height_object := by
  refine ⟨?_, rfl, rfl, ?_, ?_⟩
  · norm_num +decide [calc_room_lumens_execute, roomAreaStep, ctxBBoxPillar,
      propsBBoxPillar, defaultProps, bounding_box_area_xy, gatherObjects,
      meshPillar]
  · norm_num +decide [object_height, worldZs, propsBBoxPillar, defaultProps,
      meshPillar, Affine3.apply, Affine3.id, listMax, listMin, Vec3.dot]
  · norm_num +decide [object_height, worldZs, propsBBoxPillar, defaultProps,
      meshPillar, Affine3.apply, Affine3.id, listMax, listMin, Vec3.dot]

/-- C8 amended: `object_height` returns 0 for a missing or non-mesh
object and the world-space `z` extent (max minus min) of a mesh object's
vertices; and in every run of `calc_room_lumens` that is not cancelled by
the area guard (status `FINISHED`), when `height_source` is
`'FROM_OBJECT'` and a height object is set, `room_height` is updated to
the measured extent if and only if the extent is positive, and is left
unchanged otherwise. -/
theorem object_height_room_height_spec :
    (object_height none = 0)
    ∧ (∀ o : BObject, o.objType ≠ ObjType.MESH → object_height (some o) = 0)
    ∧ (∀ o : BObject, o.objType = ObjType.MESH →
        ∀ z zs, worldZs o = z :: zs →
        object_height (some o) = listMax (z :: zs) - listMin (z :: zs))
    ∧ (∀ (E : EigSolver) (N : Vec3 → ℚ) (ctx : Ctx)
        (props0 p' : EmissionProps),
        ctx.active_material = some props0 →
        calc_room_lumens_execute E N ctx = some (Status.FINISHED, p') →
        props0.height_source = HeightSource.FROM_OBJECT →
        props0.height_object.isSome = true →
        ((0 < object_height props0.height_object →
            p'.room_height = object_height props0.height_object) ∧
         (object_height props0.height_object ≤ 0 →
            p'.room_height = props0.room_height))) := by
  refine ⟨rfl, ?_, ?_, ?_⟩
  · intro o ho
    simp [object_height, ho]
  · intro o ho z zs hz
    simp only [object_height]
    rw [if_neg (by simp [ho]), hz]
  · intro E N ctx props0 p' hmat hrun hsrc hsome
    unfold calc_room_lumens_execute at hrun
    rcases hco : ctx.object with _ | obj <;> rw [hco] at hrun
    · simp at hrun
    rw [hmat] at hrun
    dsimp only at hrun
    cases hstep : roomAreaStep E N props0 ctx with
    | none =>
        rw [hstep] at hrun
        simp +decide at hrun
    | some p1 =>
        rw [hstep] at hrun
        simp only [Option.some.injEq, Prod.mk.injEq] at hrun
        obtain ⟨hhs, hho, hrh, -, -⟩ := roomAreaStep_some E N props0 ctx p1 hstep
        have hcr : p'.room_height = (roomHeightStep p1).room_height := by
          rw [← hrun.2]
          simp [roomComputeStep]
        obtain ⟨o, hobj⟩ := Option.isSome_iff_exists.mp hsome
        have hp1s : p1.height_source = HeightSource.FROM_OBJECT := hhs.trans hsrc
        have hp1o : p1.height_object = some o := hho.trans hobj
        constructor
        · intro hpos
          rw [hcr]
          unfold roomHeightStep
          rw [if_pos hp1s, hp1o]
          dsimp only
          rw [hobj] at hpos
          rw [if_pos hpos]
          dsimp only
          rw [hobj]
        · intro hneg
          rw [hcr]
          unfold roomHeightStep
          rw [if_pos hp1s, hp1o]
          dsimp only
          rw [hobj] at hneg
          rw [if_neg (not_lt.mpr hneg)]
          exact hrh

/-- Concrete fixture: output of a successful `calc_room_lumens` run on a
manual-area context measuring height from `meshPillar` (extent 2 m,
height factor 1 at 2 m). -/
def propsFromPillar : EmissionProps :=
  { defaultProps with
    height_source := .FROM_OBJECT, height_object := some meshPillar }

/-- Concrete fixture: context carrying `propsFromPillar`. -/
def ctxFromPillar : Ctx :=
  { object := some meshSquare, active_object := some meshSquare,
    active_material := some propsFromPillar }

/-- Concrete fixture: the output of `calc_room_lumens` on
`ctxFromPillar`: `room_height` is updated to the measured 2 m. -/
def roomOutFromPillar : EmissionProps :=
  { propsFromPillar with
    room_height := 2,
    lumens_min := 2000, lumens_avg := 3000, lumens_max := 4000,
    temp_min := 2700, temp_avg := 3000, temp_max := 3500 }

/-- Witness for `object_height_room_height_spec`: on `ctxFromPillar` the
measured extent 2 is positive and `room_height` is updated to it. -/
theorem object_height_room_height_spec_witness :
    roomOutFromPillar.room_height
      = object_height propsFromPillar.height_object :=
  (object_height_room_height_spec.2.2.2 E0 N1 ctxFromPillar propsFromPillar
      roomOutFromPillar rfl
      (by norm_num +decide [calc_room_lumens_execute, roomAreaStep,
        roomHeightStep, roomComputeStep, ctxFromPillar, propsFromPillar,
        defaultProps, roomOutFromPillar, hFactor, luxTable, tempTable,
        object_height, worldZs, meshPillar, Affine3.apply, Affine3.id,
        listMax, listMin, Vec3.dot])
      rfl rfl).1
    (by norm_num +decide [object_height, worldZs, propsFromPillar,
      defaultProps, meshPillar, Affine3.apply, Affine3.id, listMax, listMin,
      Vec3.dot])

/-- C9: when `room_area_source` is `'BOUNDING_BOX'` and the computed
bounding-box area is not positive, `calc_room_lumens` returns
`CANCELLED` with the emission properties completely unchanged. -/
theorem calc_room_lumens_invalid_area_cancels (E : EigSolver)
    (N : Vec3 → ℚ) (ctx : Ctx) (obj : BObject) (props0 : EmissionProps)
    (hobj : ctx.object = some obj)
    (hmat : ctx.active_material = some props0)
    (hsrc : props0.room_area_source = AreaSource.BOUNDING_BOX)
    (hneg : bounding_box_area_xy E N props0 ctx ≤ 0) :
    calc_room_lumens_execute E N ctx = some (Status.CANCELLED, props0) := by
  unfold calc_room_lumens_execute
  rw [hobj, hmat]
  dsimp only
  have hstep : roomAreaStep E N props0 ctx = none := by
    unfold roomAreaStep
    rw [if_pos hsrc, if_pos hneg]
  rw [hstep]

/-- Witness for `calc_room_lumens_invalid_area_cancels`: on `ctxBBox`
(bounding-box mode, no walls, no fallback object) the area is 0 and the
run cancels without touching the properties. -/
theorem calc_room_lumens_invalid_area_cancels_witness :
    calc_room_lumens_execute E0 N1 ctxBBox
      = some (Status.CANCELLED, propsBBox) :=
  calc_room_lumens_invalid_area_cancels E0 N1 ctxBBox meshSquare propsBBox
    rfl rfl rfl
    (by norm_num +decide [bounding_box_area_xy, gatherObjects, propsBBox,
      defaultProps, ctxBBox])

/-! ### Ordering helpers for the room tables -/

lemma luxTable_mono (rt : RoomType) :
    (luxTable rt).1 ≤ (luxTable rt).2.1 ∧ (luxTable rt).2.1 ≤ (luxTable rt).2.2 := by
  cases rt <;> decide

lemma tempTable_mono (rt : RoomType) :
    (tempTable rt).1 ≤ (tempTable rt).2.1 ∧
    (tempTable rt).2.1 ≤ (tempTable rt).2.2 := by
  cases rt <;> decide

lemma hFactor_ge_one (q : ℚ) : 1 ≤ hFactor q := by
  unfold hFactor
  have h0 : (0 : ℚ) ≤ max 0 (q * (328 / 100) - 10) := le_max_left 0 _
  nlinarith

lemma hFactor_eq_one (q : ℚ) (h : q ≤ 10 / (328 / 100)) : hFactor q = 1 := by
  unfold hFactor
  have h1 : q * (328 / 100) ≤ 10 :=
    (le_div_iff₀ (by norm_num : (0:ℚ) < 328 / 100)).mp h
  rw [max_eq_left (by linarith)]
  norm_num

lemma roomAreaStep_area_pos (E : EigSolver) (N : Vec3 → ℚ)
    (props : EmissionProps) (ctx : Ctx) (p1 : EmissionProps)
    (hmin : 1 ≤ props.room_area)
    (h : roomAreaStep E N props ctx = some p1) : 0 < p1.room_area := by
  unfold roomAreaStep at h
  by_cases hs : props.room_area_source = AreaSource.BOUNDING_BOX
  · rw [if_pos hs] at h
    by_cases ha : bounding_box_area_xy E N props ctx ≤ 0
    · rw [if_pos ha] at h
      exact absurd h (by simp)
    · rw [if_neg ha] at h
      simp only [Option.some.injEq] at h
      rw [← h]
      push_neg at ha
      simpa using ha
  · rw [if_neg hs] at h
    simp only [Option.some.injEq] at h
    rw [← h]
    linarith

/-- C10: after every successful run of `calc_room_lumens` (given the
declared `min=1` bound of the `room_area` property, which the host
enforces), the outputs are ordered
(`lumens_min ≤ lumens_avg ≤ lumens_max`,
`temp_min ≤ temp_avg ≤ temp_max`) and the height factor applied to the
lumens is at least 1, being exactly 1 for every room height of at most
`10/3.28` m. -/
theorem calc_room_lumens_output_ordering (E : EigSolver) (N : Vec3 → ℚ)
    (ctx : Ctx) (props0 p' : EmissionProps)
    (hmat : ctx.active_material = some props0)
    (hmin : 1 ≤ props0.room_area)
    (hrun : calc_room_lumens_execute E N ctx = some (Status.FINISHED, p')) :
    p'.lumens_min ≤ p'.lumens_avg ∧ p'.lumens_avg ≤ p'.lumens_max ∧
    p'.temp_min ≤ p'.temp_avg ∧ p'.temp_avg ≤ p'.temp_max ∧
    1 ≤ hFactor p'.room_height ∧
    (p'.room_height ≤ 10 / (328 / 100) → hFactor p'.room_height = 1) := by
  unfold calc_room_lumens_execute at hrun
  rcases hco : ctx.object with _ | obj <;> rw [hco] at hrun
  · simp at hrun
  rw [hmat] at hrun
  dsimp only at hrun
  cases hstep : roomAreaStep E N props0 ctx with
  | none =>
      rw [hstep] at hrun
      simp +decide at hrun
  | some p1 =>
      rw [hstep] at hrun
      simp only [Option.some.injEq, Prod.mk.injEq] at hrun
      have hp := hrun.2
      have harea1 : 0 < p1.room_area :=
        roomAreaStep_area_pos E N props0 ctx p1 hmin hstep
      have harea : 0 ≤ (roomHeightStep p1).room_area := by
        rw [roomHeightStep_room_area]
        exact le_of_lt harea1
      have hhf : 0 ≤ hFactor (roomHeightStep p1).room_height :=
        le_trans (by norm_num) (hFactor_ge_one _)
      obtain ⟨hl1, hl2⟩ := luxTable_mono (roomHeightStep p1).room_type
      obtain ⟨ht1, ht2⟩ := tempTable_mono (roomHeightStep p1).room_type
      rw [← hp]
      refine ⟨?_, ?_, ?_, ?_, hFactor_ge_one _, fun hq => hFactor_eq_one _ ?_⟩
      · simp only [roomComputeStep]
        exact mul_le_mul_of_nonneg_right
          (mul_le_mul_of_nonneg_right (by exact_mod_cast hl1) harea) hhf
      · simp only [roomComputeStep]
        exact mul_le_mul_of_nonneg_right
          (mul_le_mul_of_nonneg_right (by exact_mod_cast hl2) harea) hhf
      · simp only [roomComputeStep]
        exact ht1
      · simp only [roomComputeStep]
        exact ht2
      · simpa [roomComputeStep] using hq

/-- Witness for `calc_room_lumens_output_ordering`: on `ctxManual` the
outputs `2000 ≤ 3000 ≤ 4000` and `2700 ≤ 3000 ≤ 3500` are ordered and
the height factor at 2.7 m is 1. -/
theorem calc_room_lumens_output_ordering_witness :
    roomOutManual.lumens_min ≤ roomOutManual.lumens_avg ∧
    roomOutManual.lumens_avg ≤ roomOutManual.lumens_max ∧
    roomOutManual.temp_min ≤ roomOutManual.temp_avg ∧
    roomOutManual.temp_avg ≤ roomOutManual.temp_max ∧
    1 ≤ hFactor roomOutManual.room_height ∧
    (roomOutManual.room_height ≤ 10 / (328 / 100) →
      hFactor roomOutManual.room_height = 1) :=
  calc_room_lumens_output_ordering E0 N1 ctxManual defaultProps roomOutManual
    rfl (by norm_num [defaultProps])
    (by norm_num +decide [calc_room_lumens_execute, roomAreaStep,
      roomHeightStep, roomComputeStep, ctxManual, defaultProps, roomOutManual,
      hFactor, luxTable, tempTable])
